import Mathlib

/-!
Shallow embedding of the data-model module (src/src/types.rs) of the
hdc20xx temperature/humidity sensor driver crate, together with proofs
of the specified properties of address resolution, mode encodings, and
the status/measurement/error data model.
-/

namespace Hdc20xx

/-- Modelled from the spec: the crate-level constant BASE_ADDR lives in the
crate root, which is not part of the given source (types.rs only imports
it).  The spec's example scenario fixes it: "selection=Alternative(true),
BASE_ADDRESS=0x40 → resolve returns 0x41". -/
def BASE_ADDR : Nat := 0x40

/-- The enum SlaveAddr of types.rs: either the factory-default address or
an alternative address parameterised by the SDO pin bit. -/
inductive SlaveAddr where
  | Default
  | Alternative (bit : Bool)
deriving DecidableEq

/-- The impl Default for SlaveAddr of types.rs: the default selection is
the Default variant. -/
def SlaveAddr.default : SlaveAddr := SlaveAddr.Default

/-- SlaveAddr::addr of types.rs: resolve the logical selection to the
physical bus address (a u8 in the source; the computed values stay far
below 2^8, so Nat is an exact model). -/
def SlaveAddr.addr : SlaveAddr → Nat
  | SlaveAddr.Default => BASE_ADDR
  | SlaveAddr.Alternative false => BASE_ADDR
  | SlaveAddr.Alternative true => BASE_ADDR ||| 1

/-- The enum MeasurementMode of types.rs: which quantities a measurement
cycle produces. -/
inductive MeasurementMode where
  | TemperatureAndHumidity
  | TemperatureOnly
deriving DecidableEq

/-- The impl Default for MeasurementMode of types.rs. -/
def MeasurementMode.default : MeasurementMode :=
  MeasurementMode.TemperatureAndHumidity

/-- The enum AutomaticMeasurementMode of types.rs. -/
inductive AutomaticMeasurementMode where
  | Disabled
  | TwoMinutes
  | OneMinute
  | TenSeconds
  | FiveSeconds
  | OneHertz
  | TwoHertz
  | FiveHertz
deriving DecidableEq

/-- The repr(u8) discriminants assigned to each AutomaticMeasurementMode
variant in types.rs (what the Rust cast v as u8 yields). -/
def AutomaticMeasurementMode.encoding : AutomaticMeasurementMode → Nat
  | AutomaticMeasurementMode.Disabled    => 0b00000000
  | AutomaticMeasurementMode.TwoMinutes  => 0b00010100
  | AutomaticMeasurementMode.OneMinute   => 0b00100100
  | AutomaticMeasurementMode.TenSeconds  => 0b00110100
  | AutomaticMeasurementMode.FiveSeconds => 0b01000100
  | AutomaticMeasurementMode.OneHertz    => 0b01010100
  | AutomaticMeasurementMode.TwoHertz    => 0b01100100
  | AutomaticMeasurementMode.FiveHertz   => 0b01110100

/-- The struct Status of types.rs: five independent boolean flags decoded
from the status register. -/
structure Status where
  data_ready : Bool
  high_temp_threshold_exceeded : Bool
  low_temp_threshold_exceeded : Bool
  high_humidity_threshold_exceeded : Bool
  low_humidity_threshold_exceeded : Bool
deriving DecidableEq

/-- The derived PartialEq for Status: field-wise comparison of the five
booleans. -/
def Status.eqb (a b : Status) : Bool :=
  (a.data_ready == b.data_ready) &&
  (a.high_temp_threshold_exceeded == b.high_temp_threshold_exceeded) &&
  (a.low_temp_threshold_exceeded == b.low_temp_threshold_exceeded) &&
  (a.high_humidity_threshold_exceeded == b.high_humidity_threshold_exceeded) &&
  (a.low_humidity_threshold_exceeded == b.low_humidity_threshold_exceeded)

/-- Shallow model of a Rust f32 value, as far as equality is concerned: a
value is NaN, one of the two infinities, or a finite number, which we
represent by the exact rational it denotes.  (IEEE 754 equality makes +0
and -0 equal and both denote the number 0, so merging them into one
rational is faithful to IEEE equality.) -/
inductive F32 where
  | nan
  | inf
  | negInf
  | finite (q : ℚ)
deriving DecidableEq

/-- IEEE 754 equality, which is what the derived PartialEq on a Rust f32
field performs: NaN compares unequal to everything, itself included;
numeric values compare by the number they denote. -/
def F32.eqb : F32 → F32 → Bool
  | F32.nan, _ => false
  | _, F32.nan => false
  | F32.inf, F32.inf => true
  | F32.negInf, F32.negInf => true
  | F32.finite q, F32.finite r => q == r
  | _, _ => false

/-- The derived PartialEq on the Option f32 humidity field of types.rs. -/
def optF32Eqb : Option F32 → Option F32 → Bool
  | none, none => true
  | some a, some b => F32.eqb a b
  | _, _ => false

/-- The struct Measurement of types.rs: temperature, optional humidity,
and the status snapshot. -/
structure Measurement where
  temperature : F32
  humidity : Option F32
  status : Status

/-- The derived PartialEq for Measurement: field-wise comparison, using
IEEE equality on the float fields. -/
def Measurement.eqb (a b : Measurement) : Bool :=
  F32.eqb a.temperature b.temperature &&
  optF32Eqb a.humidity b.humidity &&
  Status.eqb a.status b.status

/-- Modelled from the spec: the surrounding driver's measurement-assembly
step is not in the given source (types.rs only defines the data types).
The spec's construction rule: "the humidity field must be populated if
and only if the measurement was taken under content mode
TemperatureAndHumidity; under TemperatureOnly it must be the explicit
absent value". -/
def mkMeasurement (mode : MeasurementMode) (temp : F32) (hum : F32)
    (st : Status) : Measurement :=
  match mode with
  | MeasurementMode.TemperatureAndHumidity =>
      { temperature := temp, humidity := some hum, status := st }
  | MeasurementMode.TemperatureOnly =>
      { temperature := temp, humidity := none, status := st }

/-- The enum Error of types.rs, generic over the transport error type. -/
inductive Error (E : Type) where
  | I2C (e : E)
  | InvalidInputData

/-- Extraction of the wrapped transport error from an Error value. -/
def Error.unwrapI2C {E : Type} : Error E → Option E
  | Error.I2C e => some e
  | Error.InvalidInputData => none

/-- A concrete Measurement whose temperature is NaN, used to exhibit the
non-reflexivity of the derived PartialEq. -/
def nanMeasurement : Measurement :=
  { temperature := F32.nan
    humidity := none
    status :=
      { data_ready := false
        high_temp_threshold_exceeded := false
        low_temp_threshold_exceeded := false
        high_humidity_threshold_exceeded := false
        low_humidity_threshold_exceeded := false } }

/-- C1: addr(SlaveAddr::Default) = BASE_ADDR,
addr(SlaveAddr::Alternative(false)) = BASE_ADDR,
addr(SlaveAddr::Alternative(true)) = BASE_ADDR | 1, and
SlaveAddr::default() is the Default variant, so the default selection
resolves to BASE_ADDR. -/
theorem slaveAddr_resolution :
    SlaveAddr.addr SlaveAddr.Default = BASE_ADDR ∧
    SlaveAddr.addr (SlaveAddr.Alternative false) = BASE_ADDR ∧
    SlaveAddr.addr (SlaveAddr.Alternative true) = BASE_ADDR ||| 1 ∧
    SlaveAddr.default = SlaveAddr.Default ∧
    SlaveAddr.addr SlaveAddr.default = BASE_ADDR := by
  refine ⟨rfl, rfl, rfl, rfl, rfl⟩

/-- C2: each AutomaticMeasurementMode variant has exactly the listed
8-bit numeric encoding: Disabled=0x00, TwoMinutes=0x14, OneMinute=0x24,
TenSeconds=0x34, FiveSeconds=0x44, OneHertz=0x54, TwoHertz=0x64,
FiveHertz=0x74. -/
theorem automaticMeasurementMode_encodings :
    AutomaticMeasurementMode.encoding AutomaticMeasurementMode.Disabled = 0x00 ∧
    AutomaticMeasurementMode.encoding AutomaticMeasurementMode.TwoMinutes = 0x14 ∧
    AutomaticMeasurementMode.encoding AutomaticMeasurementMode.OneMinute = 0x24 ∧
    AutomaticMeasurementMode.encoding AutomaticMeasurementMode.TenSeconds = 0x34 ∧
    AutomaticMeasurementMode.encoding AutomaticMeasurementMode.FiveSeconds = 0x44 ∧
    AutomaticMeasurementMode.encoding AutomaticMeasurementMode.OneHertz = 0x54 ∧
    AutomaticMeasurementMode.encoding AutomaticMeasurementMode.TwoHertz = 0x64 ∧
    AutomaticMeasurementMode.encoding AutomaticMeasurementMode.FiveHertz = 0x74 := by
  refine ⟨rfl, rfl, rfl, rfl, rfl, rfl, rfl, rfl⟩

/-- C4: MeasurementMode::default() equals
MeasurementMode::TemperatureAndHumidity. -/
theorem measurementMode_default :
    MeasurementMode.default = MeasurementMode.TemperatureAndHumidity := rfl

/-- C5: the numeric encoding of AutomaticMeasurementMode is injective:
distinct variants have distinct u8 encodings. -/
theorem automaticMeasurementMode_encoding_injective
    (v1 v2 : AutomaticMeasurementMode) (h : v1 ≠ v2) :
    AutomaticMeasurementMode.encoding v1 ≠ AutomaticMeasurementMode.encoding v2 := by
  cases v1 <;> cases v2 <;> first
    | exact absurd rfl h
    | decide

/-- Witness for C5 at a concrete pair of distinct variants. -/
theorem automaticMeasurementMode_encoding_injective_witness :
    AutomaticMeasurementMode.encoding AutomaticMeasurementMode.Disabled ≠
      AutomaticMeasurementMode.encoding AutomaticMeasurementMode.TwoMinutes :=
  automaticMeasurementMode_encoding_injective
    AutomaticMeasurementMode.Disabled AutomaticMeasurementMode.TwoMinutes
    (by decide)

/-- C6: addr(Alternative(true)) differs from addr(Alternative(false));
with the base address 0x40, Alternative(true) resolves to 0x41 while
Alternative(false) resolves to 0x40, identical to Default. -/
theorem slaveAddr_alternative_distinct :
    SlaveAddr.addr (SlaveAddr.Alternative true) ≠
      SlaveAddr.addr (SlaveAddr.Alternative false) ∧
    SlaveAddr.addr (SlaveAddr.Alternative true) = 0x41 ∧
    SlaveAddr.addr (SlaveAddr.Alternative false) = 0x40 ∧
    SlaveAddr.addr (SlaveAddr.Alternative false) = SlaveAddr.addr SlaveAddr.Default := by
  refine ⟨by decide, by decide, rfl, rfl⟩

/-- C7: SlaveAddr::addr is total over its whole input domain (it is a
Lean function defined by exhaustive match on Default, Alternative(false)
and Alternative(true), with no error path) and for every selection the
result is a 7-bit bus address, i.e. below 0x80. -/
theorem slaveAddr_addr_seven_bit (s : SlaveAddr) :
    (s.addr = BASE_ADDR ∨ s.addr = BASE_ADDR ||| 1) ∧ s.addr < 0x80 := by
  cases s with
  | Default => exact ⟨Or.inl rfl, by decide⟩
  | Alternative b =>
      cases b with
      | false => exact ⟨Or.inl rfl, by decide⟩
      | true => exact ⟨Or.inr rfl, by decide⟩

/-- C8: the Error::I2C variant carries the transport error unchanged
(extracting from Error::I2C(e) yields exactly e), and Error has exactly
two variants: every value is either I2C(e) for some e, or
InvalidInputData. -/
theorem error_wraps_unchanged (E : Type) (e : E) :
    Error.unwrapI2C (Error.I2C e) = some e ∧
    ∀ x : Error E, (∃ v, x = Error.I2C v) ∨ x = Error.InvalidInputData := by
  refine ⟨rfl, fun x => ?_⟩
  cases x with
  | I2C v => exact Or.inl ⟨v, rfl⟩
  | InvalidInputData => exact Or.inr rfl

/-- C3: a Measurement assembled under TemperatureOnly has no humidity;
one assembled under TemperatureAndHumidity carries the humidity reading
unchanged; the humidity field is populated iff the content mode was
TemperatureAndHumidity. -/
theorem mkMeasurement_humidity (temp hum : F32) (st : Status) :
    (mkMeasurement MeasurementMode.TemperatureOnly temp hum st).humidity = none ∧
    (mkMeasurement MeasurementMode.TemperatureAndHumidity temp hum st).humidity = some hum ∧
    ∀ mode : MeasurementMode,
      (∃ h, (mkMeasurement mode temp hum st).humidity = some h) ↔
        mode = MeasurementMode.TemperatureAndHumidity := by
  refine ⟨rfl, rfl, fun mode => ?_⟩
  cases mode with
  | TemperatureAndHumidity => simp [mkMeasurement]
  | TemperatureOnly => simp [mkMeasurement]

theorem Status.eqb_iff (a b : Status) : Status.eqb a b = true ↔ a = b := by
  cases a
  cases b
  simp [Status.eqb, and_assoc]

/-- C9: equality on Status is purely structural: two Status values are
equal exactly when all five boolean fields agree pairwise; flipping any
single flag breaks equality; and every combination of the five booleans
is realised by a well-formed Status value. -/
theorem status_structural_equality :
    (∀ a b : Status, Status.eqb a b = true ↔
      (a.data_ready = b.data_ready ∧
       a.high_temp_threshold_exceeded = b.high_temp_threshold_exceeded ∧
       a.low_temp_threshold_exceeded = b.low_temp_threshold_exceeded ∧
       a.high_humidity_threshold_exceeded = b.high_humidity_threshold_exceeded ∧
       a.low_humidity_threshold_exceeded = b.low_humidity_threshold_exceeded)) ∧
    (∀ a : Status,
      Status.eqb a { a with data_ready := !a.data_ready } = false ∧
      Status.eqb a { a with high_temp_threshold_exceeded :=
        !a.high_temp_threshold_exceeded } = false ∧
      Status.eqb a { a with low_temp_threshold_exceeded :=
        !a.low_temp_threshold_exceeded } = false ∧
      Status.eqb a { a with high_humidity_threshold_exceeded :=
        !a.high_humidity_threshold_exceeded } = false ∧
      Status.eqb a { a with low_humidity_threshold_exceeded :=
        !a.low_humidity_threshold_exceeded } = false) ∧
    (∀ b1 b2 b3 b4 b5 : Bool, ∃ s : Status,
      s.data_ready = b1 ∧
      s.high_temp_threshold_exceeded = b2 ∧
      s.low_temp_threshold_exceeded = b3 ∧
      s.high_humidity_threshold_exceeded = b4 ∧
      s.low_humidity_threshold_exceeded = b5) := by
  refine ⟨fun a b => ?_, fun a => ?_, fun b1 b2 b3 b4 b5 =>
    ⟨⟨b1, b2, b3, b4, b5⟩, rfl, rfl, rfl, rfl, rfl⟩⟩
  · cases a
    cases b
    simp [Status.eqb, and_assoc]
  · refine ⟨?_, ?_, ?_, ?_, ?_⟩ <;> simp [Status.eqb]

theorem f32Eqb_symm (a b : F32) : F32.eqb a b = F32.eqb b a := by
  cases a with
  | finite q =>
      cases b with
      | finite r =>
          show (q == r) = (r == q)
          rcases eq_or_ne q r with h | h
          · subst h; rfl
          · rw [beq_eq_false_iff_ne.mpr h, beq_eq_false_iff_ne.mpr (Ne.symm h)]
      | nan => rfl
      | inf => rfl
      | negInf => rfl
  | nan => cases b <;> rfl
  | inf => cases b <;> rfl
  | negInf => cases b <;> rfl

theorem f32Eqb_trans (a b c : F32) (h1 : F32.eqb a b = true)
    (h2 : F32.eqb b c = true) : F32.eqb a c = true := by
  cases a <;> cases b <;> cases c <;> simp_all [F32.eqb]

theorem optF32Eqb_symm (a b : Option F32) : optF32Eqb a b = optF32Eqb b a := by
  cases a with
  | none => cases b <;> rfl
  | some x =>
      cases b with
      | none => rfl
      | some y => exact f32Eqb_symm x y

theorem optF32Eqb_trans (a b c : Option F32) (h1 : optF32Eqb a b = true)
    (h2 : optF32Eqb b c = true) : optF32Eqb a c = true := by
  cases a <;> cases b <;> cases c <;> simp_all [optF32Eqb]
  exact f32Eqb_trans _ _ _ h1 h2

theorem statusEqb_symm (a b : Status) : Status.eqb a b = Status.eqb b a := by
  rw [Bool.eq_iff_iff, Status.eqb_iff, Status.eqb_iff]
  exact eq_comm

theorem statusEqb_trans (a b c : Status) (h1 : Status.eqb a b = true)
    (h2 : Status.eqb b c = true) : Status.eqb a c = true :=
  (Status.eqb_iff a c).mpr (((Status.eqb_iff a b).mp h1).trans
    ((Status.eqb_iff b c).mp h2))

theorem measurementEqb_symm (a b : Measurement) :
    Measurement.eqb a b = Measurement.eqb b a := by
  unfold Measurement.eqb
  rw [f32Eqb_symm, optF32Eqb_symm, statusEqb_symm]

theorem measurementEqb_trans (a b c : Measurement)
    (h1 : Measurement.eqb a b = true) (h2 : Measurement.eqb b c = true) :
    Measurement.eqb a c = true := by
  simp only [Measurement.eqb, Bool.and_eq_true] at h1 h2 ⊢
  exact ⟨⟨f32Eqb_trans _ _ _ h1.1.1 h2.1.1,
          optF32Eqb_trans _ _ _ h1.1.2 h2.1.2⟩,
         statusEqb_trans _ _ _ h1.2 h2.2⟩

/-- C10: the derived PartialEq on Measurement is not reflexive: the
concrete measurement whose temperature is NaN compares unequal to
itself; equality is nevertheless symmetric and transitive, so it is a
partial equivalence relation rather than an equivalence relation. -/
theorem measurement_eq_not_reflexive :
    Measurement.eqb nanMeasurement nanMeasurement = false ∧
    (∀ a b : Measurement, Measurement.eqb a b = Measurement.eqb b a) ∧
    (∀ a b c : Measurement, Measurement.eqb a b = true →
      Measurement.eqb b c = true → Measurement.eqb a c = true) :=
  ⟨rfl, measurementEqb_symm, measurementEqb_trans⟩

end Hdc20xx
